import Mathlib

/-!
Shallow embedding of the `RemoteSession` remote-session orchestrator of the
github-vsc extension (latest revision of `remote-session/index.ts`).

The class methods and socket event handlers are modelled as pure functions
from an explicit orchestrator state (`RemoteSession`) to a new state paired
with a list of external effects (transport emits, UI callbacks, warnings).
Status notifications are delivered by the pure `deliverStatusData` function of
the resulting status record, exactly as every `setPartialRunnerStatusData`
call in the source fans out to `deliverStatusData`.

Timestamps are integers in milliseconds.  The dayjs second difference used by
the terminal-close liveness heuristic is the millisecond difference divided by
1000 and truncated toward zero, as dayjs `diff(_, 'second')` does.

`setTimeout` handles are natural numbers.  The `armedConnectTimers` and
`armedProvisionTimers` lists model the JS runtime timer table (every armed,
not-yet-cancelled, not-yet-fired timer of the kind), while the
`workflowDispatchTimeout` field mirrors the single handle the class stores.
The connect-timeout handle is a local of `connectTo` and is never stored on
the class, hence has no field counterpart.
-/

/-- Connection states of the orchestrator (`RunnerStatus` in `types.ts`).  The
spec names `Idle`/`Timeout`/`Terminated` map to `Initial` paired with the
corresponding `RunnerError`. -/
inductive RunnerStatus
  | Initial
  | Connecting
  | Connected
  | SessionStarted
  | Disconnected
  deriving DecidableEq

/-- Peer (runner client) liveness, `RunnerClientStatus` from the runner core
package. -/
inductive RunnerClientStatus
  | Offline
  | Online
  deriving DecidableEq

/-- Error kinds carried by the status record (`RunnerError` in `types.ts`). -/
inductive RunnerError
  | Timeout
  | SessionTerminated
  | SessionIdDoesNotMatch
  deriving DecidableEq

/-- `RunnerStatusData`: observed state of the transport and the remote peer. -/
structure RunnerStatusData where
  runnerStatus : RunnerStatus
  runnerClientStatus : RunnerClientStatus
  sessionId : Option String := none
  runnerError : Option RunnerError := none
  runnerClientOS : Option String := none
  deriving DecidableEq

/-- `SessionData`: identity of one logical remote execution context.  The
`githubRef` field stands for the runner descriptor key (`getRefKey`). -/
structure SessionData where
  githubRef : String
  serverAddress : String
  sessionId : Option String := none
  os : Option String := none
  defaultShell : Option String := none
  deriving DecidableEq

/-- `TerminalInstance`: `TerminalOptions` plus the local activation metadata
added by the latest revision. -/
structure TerminalInstance where
  id : String
  file : String
  cols : Nat
  rows : Nat
  activateTime : Int
  restoredFromRemote : Bool
  deriving DecidableEq

/-- External effects performed by the modelled methods: transport emits,
socket teardown, UI callbacks, user-facing warnings and prompts. -/
inductive Effect
  | emitCheckRunnerStatus
  | emitActivateTerminal (options : TerminalInstance)
  | socketOffAny
  | socketDisconnect
  | removeFSSocket
  | onDisconnected
  | onPortForwardingUpdate (port : Option Nat)
  | launchRunnerClient
  | showWarning (message : String)
  | promptSessionConflict
  deriving DecidableEq

/-- One UI notification produced by `deliverStatusData` (`type` and `message`
of a `RemoteSessionDataPayload`). -/
structure Payload where
  ptype : String
  message : Option String
  deriving DecidableEq

/-- Orchestrator state: the mutable fields of the `RemoteSession` class plus
the persisted-session store (`getSessionData`/`setSessionData` on the
extension global state) and the runtime timer table. -/
structure RemoteSession where
  data : Option SessionData
  terminals : List TerminalInstance
  statusData : RunnerStatusData
  socket : Option Nat
  workflowDispatchTimeout : Option Nat
  armedProvisionTimers : List Nat
  armedConnectTimers : List Nat
  store : List (String × SessionData)
  deriving DecidableEq

/-- JS truthiness of an optional string: `undefined` and the empty string are
falsy. -/
def truthy : Option String → Bool
  | none => false
  | some x => x != ""

/-- `getSessionData`: look up the persisted session for a ref key. -/
def storeGet (store : List (String × SessionData)) (key : String) :
    Option SessionData :=
  (store.find? (fun p => p.1 == key)).map Prod.snd

/-- `setSessionData`: set or clear the persisted session for a ref key. -/
def storeSet (store : List (String × SessionData)) (key : String)
    (v : Option SessionData) : List (String × SessionData) :=
  match v with
  | none => store.filter (fun p => p.1 != key)
  | some d => (key, d) :: store.filter (fun p => p.1 != key)

namespace RemoteSession

/-- The private `sessionId` getter: `this._data?.sessionId`. -/
def heldSessionId (s : RemoteSession) : Option String :=
  s.data.bind SessionData.sessionId

/-- `terminalLiveThreshold = 3` (seconds). -/
def terminalLiveThreshold : Int := 3

/-- dayjs `a.diff(b, 'second')` on millisecond timestamps: divide by 1000 and
truncate toward zero (dayjs `absFloor`). -/
def diffSecond (a b : Int) : Int :=
  if a - b < 0 then -(Int.ofNat ((-(a - b)).toNat / 1000))
  else Int.ofNat ((a - b).toNat / 1000)

/-- `resetRunnerStatus`: clear the status session id and error-reset the
status record (note it overwrites `runnerError` even with `none`, since the
source spreads an explicit `runnerError` key). -/
def resetRunnerStatus (runnerStatus : RunnerStatus)
    (runnerError : Option RunnerError) (d : RunnerStatusData) :
    RunnerStatusData :=
  { d with
    sessionId := none
    runnerStatus := runnerStatus
    runnerError := runnerError
    runnerClientStatus := RunnerClientStatus.Offline
    runnerClientOS := none }

/-- Message shown while the transport is up but the session is not yet
confirmed (typos as in the source). -/
def connectedText (held : Option String) : String :=
  "Runner conncted. " ++
    (match held with
     | some sid => "Resuming session " ++ sid
     | none => "Reuqesting new session") ++ "..."

/-- The dedicated connect-timeout error message. -/
def connectTimeoutText : String :=
  "Connection timeout. Please try another runner."

/-- The session-terminated error message. -/
def sessionTerminatedText : String :=
  "The session is not available in the runner or it has been terminated, please ensure you chose the correct runner server or create a new session if needed."

/-- The session-id-mismatch error message (source contraction written out). -/
def sessionIdDoesNotMatchText : String :=
  "The registered session ID for this client does not match. Please check your input."

/-- The transport-disconnected error message. -/
def disconnectedText : String :=
  "Runner server disconnected, this may infer an upgrade/maintenance. Trying to re-connect..."

/-- Session-started message while the peer is still offline. -/
def sessionStartedWaitingText : String :=
  "Session started. Waiting for runner client response..."

/-- Session-started message once the peer reported online. -/
def clientConnectedText : String :=
  "Runner client connected. Happy hacking!"

/-- Modelled from the spec: the `runnerErrorMesage` table lives in
`remote-session/consts`, which is not under `src/`; per the spec every error
kind is surfaced as a structured error notification.  No claim depends on the
exact text, only on the error severity. -/
def runnerErrorMesage : RunnerError → String
  | RunnerError.Timeout => "connection timeout"
  | RunnerError.SessionTerminated => "session terminated"
  | RunnerError.SessionIdDoesNotMatch => "session id mismatch"

/-- `deliverStatusData`: pure function of the status record (and the held
session id) to the list of UI notifications pushed to `_onUpdate`. -/
def deliverStatusData (s : RemoteSession) : List Payload :=
  let d := s.statusData
  (if d.runnerStatus = RunnerStatus.Connected then
    [{ ptype := "message", message := some (connectedText (heldSessionId s)) }]
   else [])
  ++ (if d.runnerStatus = RunnerStatus.Connecting then
    [{ ptype := "message", message := none }]
   else [])
  ++ (if d.runnerStatus = RunnerStatus.Initial then
    [{ ptype := "message", message := none }]
    ++ (match d.runnerError with
        | some e => [{ ptype := "error", message := some (runnerErrorMesage e) }]
        | none => [])
    ++ (if d.runnerError = some RunnerError.Timeout then
         [{ ptype := "error", message := some connectTimeoutText }] else [])
    ++ (if d.runnerError = some RunnerError.SessionTerminated then
         [{ ptype := "error", message := some sessionTerminatedText }] else [])
    ++ (if d.runnerError = some RunnerError.SessionIdDoesNotMatch then
         [{ ptype := "error", message := some sessionIdDoesNotMatchText }] else [])
   else [])
  ++ (if d.runnerStatus = RunnerStatus.Disconnected then
    [{ ptype := "error", message := some disconnectedText }]
   else [])
  ++ (if d.runnerStatus = RunnerStatus.SessionStarted then
    [{ ptype := "message",
       message := some (if d.runnerClientStatus = RunnerClientStatus.Offline
         then sessionStartedWaitingText else clientConnectedText) }]
   else [])

/-- `clearWorkflowDispatchTimeoutIfNeeded`: cancel the stored provisioning
(workflow-dispatch) timer, if any. -/
def clearWorkflowDispatchTimeoutIfNeeded (s : RemoteSession) : RemoteSession :=
  match s.workflowDispatchTimeout with
  | some h =>
    { s with
      armedProvisionTimers := s.armedProvisionTimers.erase h
      workflowDispatchTimeout := none }
  | none => s

/-- The provisioning-timer discipline of `launchRunnerClient`: it first calls
`clearWorkflowDispatchTimeoutIfNeeded` and then `dispatchRunnerClientWorkflow`
stores the newly armed timeout handle in `_workflowDispatchTimeout`. -/
def armWorkflowDispatchTimeout (h : Nat) (s : RemoteSession) : RemoteSession :=
  let s1 := clearWorkflowDispatchTimeoutIfNeeded s
  { s1 with
    armedProvisionTimers := h :: s1.armedProvisionTimers
    workflowDispatchTimeout := some h }

/-- `disconnectRunner`: full local teardown — cancel the provisioning timer,
detach and disconnect the socket, drop the filesystem socket, clear the
session data and the terminal registry, reset the status with the given
error, and fire the `_onDisconnected` callback.  The persisted-session store
is not touched. -/
def disconnectRunner (error : Option RunnerError) (s : RemoteSession) :
    RemoteSession × List Effect :=
  let s1 := clearWorkflowDispatchTimeoutIfNeeded s
  ({ s1 with
      data := none
      terminals := []
      socket := none
      statusData := resetRunnerStatus RunnerStatus.Initial error s1.statusData },
   (if s.socket.isSome then [Effect.socketOffAny, Effect.socketDisconnect]
    else [])
   ++ [Effect.removeFSSocket, Effect.onDisconnected])

/-- Handler of the transport `disconnect` event: only resets the status record
to `Disconnected` (the terminal registry is left as it is). -/
def onDisconnect (s : RemoteSession) : RemoteSession :=
  { s with statusData := resetRunnerStatus RunnerStatus.Disconnected none s.statusData }

/-- Handler of the `SessionTerminated` server event: delegates to
`disconnectRunner` with the `SessionTerminated` error. -/
def onSessionTerminated (s : RemoteSession) : RemoteSession × List Effect :=
  disconnectRunner (some RunnerError.SessionTerminated) s

/-- Handler of the `SessionStarted` server event (registered by `connectTo`
with `connectData` in scope).  On a held-id mismatch it force-disconnects
with `SessionIdDoesNotMatch`.  Otherwise it records the id in the status,
fires the port-forwarding callback, persists the session, adopts the id into
`_data` (via the `sessionId` setter, which clears `_data` on a falsy id), and
either triggers provisioning (new session) or requests a runner-status
refresh (`retrieveRunnerInfo`, resumed session). -/
def onSessionStarted (connectData : SessionData) (incoming : String)
    (s : RemoteSession) : RemoteSession × List Effect :=
  if truthy (heldSessionId s) && !(heldSessionId s == some incoming) then
    disconnectRunner (some RunnerError.SessionIdDoesNotMatch) s
  else
    ({ s with
        statusData := { s.statusData with
          sessionId := some incoming
          runnerStatus := RunnerStatus.SessionStarted }
        store := storeSet s.store connectData.githubRef
          (some { connectData with sessionId := some incoming })
        data := if incoming = "" then none
          else s.data.map (fun sd => { sd with sessionId := some incoming }) },
     [Effect.onPortForwardingUpdate none]
     ++ (if truthy (heldSessionId s) then [Effect.emitCheckRunnerStatus]
         else [Effect.launchRunnerClient]))

/-- The guard of the connect-timeout callback:
`[Initial, Connected, Connecting].includes(this.runnerStatus)`. -/
def connectTimerGuard (s : RemoteSession) : Bool :=
  decide (s.statusData.runnerStatus ∈
    [RunnerStatus.Initial, RunnerStatus.Connected, RunnerStatus.Connecting])

/-- Firing of an armed connect-timeout timer `h`: if still armed and the
status guard passes, disconnect the socket and reset the status to `Initial`
with the `Timeout` error; otherwise the callback body is skipped.  Firing
always consumes the handle. -/
def fireConnectTimer (h : Nat) (s : RemoteSession) :
    RemoteSession × List Effect :=
  if h ∈ s.armedConnectTimers then
    if connectTimerGuard s then
      ({ s with
          armedConnectTimers := s.armedConnectTimers.erase h
          statusData := resetRunnerStatus RunnerStatus.Initial
            (some RunnerError.Timeout) s.statusData },
       [Effect.socketDisconnect])
    else
      ({ s with armedConnectTimers := s.armedConnectTimers.erase h }, [])
  else (s, [])

/-- Whether `connectTo` finds a conflicting persisted session:
`existingSession?.sessionId && existingSession.sessionId !== data.sessionId`. -/
def sessionConflictB (store : List (String × SessionData))
    (data : SessionData) : Bool :=
  match storeGet store data.githubRef with
  | some es => truthy es.sessionId && !(es.sessionId == data.sessionId)
  | none => false

/-- Synchronous part of `connectTo`: the conflict confirmation prompt (with
the user answer passed in), then — on proceed — teardown of any prior socket,
adoption of `data`, creation of the new socket, arming of a fresh
connect-timeout timer (the source never cancels a previously armed one here),
and the transition to `Connecting` with a cleared terminal registry.  On
decline only `runnerStatus` is set back to `Initial` and `false` is
returned. -/
def connectTo (data : SessionData) (answer : Option String)
    (newSock newTimer : Nat) (s : RemoteSession) :
    Bool × RemoteSession × List Effect :=
  let conflict := sessionConflictB s.store data
  let promptEffects := if conflict then [Effect.promptSessionConflict] else []
  if conflict && !(answer == some "Continue") then
    (false,
     { s with statusData := { s.statusData with runnerStatus := RunnerStatus.Initial } },
     promptEffects)
  else
    (true,
     { s with
        data := some data
        socket := some newSock
        armedConnectTimers := newTimer :: s.armedConnectTimers
        terminals := []
        statusData := { s.statusData with
          sessionId := data.sessionId
          runnerStatus := RunnerStatus.Connecting
          runnerError := none
          runnerClientStatus := RunnerClientStatus.Offline } },
     promptEffects
     ++ (if s.socket.isSome then [Effect.socketDisconnect] else []))

/-- Modelled from the spec: `getDefaultShell` lives in `core/utils/shell`,
not under `src/`; it picks a default shell path from the peer OS.  The
concrete value is immaterial to the claims. -/
def getDefaultShell (_os : Option String) : String := "bash"

/-- `activateTerminal(file?, ignoreIfExists)`: fails when the peer is
offline; succeeds as a no-op when `ignoreIfExists` is set and the registry is
non-empty; otherwise appends one freshly built instance (id from `nanoid`,
passed here as `newId`), emits one activation message, and persists the
shell choice on the session record. -/
def activateTerminal (file : Option String) (ignoreIfExists : Bool)
    (newId : String) (now : Int) (s : RemoteSession) :
    Bool × RemoteSession × List Effect :=
  if s.statusData.runnerClientStatus = RunnerClientStatus.Offline then
    (false, s, [])
  else if ignoreIfExists && !s.terminals.isEmpty then
    (true, s, [])
  else
    let options : TerminalInstance :=
      { id := newId
        file := file.getD ((s.data.bind SessionData.defaultShell).getD
          (getDefaultShell s.statusData.runnerClientOS))
        cols := 80
        rows := 30
        activateTime := now
        restoredFromRemote := false }
    (true,
     { s with
        terminals := s.terminals ++ [options]
        store := match s.data with
          | some d => storeSet s.store d.githubRef (some { d with defaultShell := file })
          | none => s.store },
     [Effect.emitActivateTerminal options])

/-- Warning text shown by the terminal-close liveness heuristic (with the
threshold interpolated as in the source). -/
def terminalClosedWarningText : String :=
  "Terminal closed in 3 seconds, this may indicate an error. Please make sure the shell file exists in the runner client OS."

/-- Whether the `TerminalClosed` handler shows the misconfiguration warning:
the dayjs second difference of the matching instance (0 when the id is
unknown) is at least `-terminalLiveThreshold`. -/
def closeWarning (s : RemoteSession) (terminalId : String) (now : Int) : Bool :=
  decide ((match s.terminals.find? (fun t => t.id == terminalId) with
           | some t => diffSecond t.activateTime now
           | none => 0) ≥ -terminalLiveThreshold)

/-- Handler of the `TerminalClosed` runner event: surface the liveness
warning when applicable and drop the matching instance from the registry. -/
def onTerminalClosed (terminalId : String) (now : Int) (s : RemoteSession) :
    RemoteSession × List Effect :=
  ({ s with terminals := s.terminals.filter (fun t => t.id != terminalId) },
   if closeWarning s terminalId now then
     [Effect.showWarning terminalClosedWarningText]
   else [])

end RemoteSession

/-- A baseline status record used by concrete witnesses. -/
def baseStatus : RunnerStatusData :=
  { runnerStatus := RunnerStatus.Initial,
    runnerClientStatus := RunnerClientStatus.Offline }

/-- A baseline orchestrator state used by concrete witnesses. -/
def baseState : RemoteSession :=
  { data := none, terminals := [], statusData := baseStatus, socket := none,
    workflowDispatchTimeout := none, armedProvisionTimers := [],
    armedConnectTimers := [], store := [] }

/-- A sample session record used by concrete witnesses. -/
def sampleSession : SessionData :=
  { githubRef := "owner/repo/main", serverAddress := "wss://runner.example",
    sessionId := some "abc" }

/-- A sample terminal instance used by concrete witnesses. -/
def sampleTerminal : TerminalInstance :=
  { id := "t1", file := "bash", cols := 80, rows := 30, activateTime := 0,
    restoredFromRemote := false }

/-- A concrete state in `SessionStarted` with a live terminal, an online
peer and a persisted session record, used by concrete witnesses. -/
def sessionStartedState : RemoteSession :=
  { baseState with
    data := some sampleSession
    terminals := [sampleTerminal]
    socket := some 5
    statusData := { baseStatus with
      runnerStatus := RunnerStatus.SessionStarted
      runnerClientStatus := RunnerClientStatus.Online
      sessionId := some "abc" }
    store := [("owner/repo/main", sampleSession)] }

/-- A concrete state in `Connecting` with an armed connect timer, used by
concrete witnesses. -/
def connectingState : RemoteSession :=
  { baseState with
    data := some sampleSession
    socket := some 5
    armedConnectTimers := [1]
    statusData := { baseStatus with
      runnerStatus := RunnerStatus.Connecting
      sessionId := some "abc" } }

open RemoteSession

/-- C1: if the orchestrator holds a non-empty session id and a
`session-started` event carries a different id, the handler takes the
`SessionIdDoesNotMatch` error path through the full `disconnectRunner`
teardown, and the received id is never recorded (both the held id and the
status session id end up cleared). -/
theorem session_started_mismatch_forces_disconnect
    (s : RemoteSession) (connectData : SessionData) (incoming old : String)
    (hheld : heldSessionId s = some old)
    (hne : old ≠ "") (hdiff : old ≠ incoming) :
    onSessionStarted connectData incoming s
      = disconnectRunner (some RunnerError.SessionIdDoesNotMatch) s
    ∧ (onSessionStarted connectData incoming s).1.statusData.runnerError
      = some RunnerError.SessionIdDoesNotMatch
    ∧ heldSessionId (onSessionStarted connectData incoming s).1 = none
    ∧ (onSessionStarted connectData incoming s).1.statusData.sessionId = none
    ∧ (onSessionStarted connectData incoming s).1.statusData.runnerStatus
      = RunnerStatus.Initial
    ∧ Effect.onDisconnected ∈ (onSessionStarted connectData incoming s).2 := by
  have hcond : (truthy (heldSessionId s)
      && !(heldSessionId s == some incoming)) = true := by
    rw [hheld]
    simp [truthy, hne, hdiff]
  have hmain : onSessionStarted connectData incoming s
      = disconnectRunner (some RunnerError.SessionIdDoesNotMatch) s := by
    unfold onSessionStarted
    rw [hcond]
    simp
  refine ⟨hmain, ?_, ?_, ?_, ?_, ?_⟩ <;>
    rw [hmain] <;>
    cases hw : s.workflowDispatchTimeout <;>
    simp [disconnectRunner, clearWorkflowDispatchTimeoutIfNeeded, hw,
      resetRunnerStatus, heldSessionId]

/-- C1 witness at a concrete state holding session id `abc` receiving
`xyz`. -/
theorem session_started_mismatch_forces_disconnect_witness :
    heldSessionId (onSessionStarted sampleSession "xyz"
      { baseState with data := some sampleSession }).1 = none
    ∧ (onSessionStarted sampleSession "xyz"
      { baseState with data := some sampleSession }).1.statusData.runnerError
      = some RunnerError.SessionIdDoesNotMatch :=
  ⟨(session_started_mismatch_forces_disconnect
      { baseState with data := some sampleSession } sampleSession "xyz" "abc"
      (by decide) (by decide) (by decide)).2.2.1,
   (session_started_mismatch_forces_disconnect
      { baseState with data := some sampleSession } sampleSession "xyz" "abc"
      (by decide) (by decide) (by decide)).2.1⟩

/-- C2 counterexample: the transport `disconnect` handler of the latest
revision only resets the status record — a state whose registry holds one
terminal still holds it after the event, even though the peer state is
forced to `Offline`.  This refutes the claim that the registry is empty
after every transport disconnect. -/
theorem disconnect_event_registry_not_cleared_cex :
    (onDisconnect { baseState with terminals := [sampleTerminal] }).terminals ≠ []
    ∧ (onDisconnect
        { baseState with terminals := [sampleTerminal] }).statusData.runnerClientStatus
      = RunnerClientStatus.Offline := by
  decide

/-- C2 amended: after a transport `disconnect` event the peer state is
`Offline`, the connection state is `Disconnected` and the status session id
is cleared, but the Terminal Registry is left exactly as it was (it is only
cleared by `connectTo` or by the full `disconnectRunner` teardown). -/
theorem disconnect_event_offline_registry_kept (s : RemoteSession) :
    (onDisconnect s).statusData.runnerClientStatus = RunnerClientStatus.Offline
    ∧ (onDisconnect s).statusData.runnerStatus = RunnerStatus.Disconnected
    ∧ (onDisconnect s).statusData.sessionId = none
    ∧ (onDisconnect s).terminals = s.terminals := by
  simp [onDisconnect, resetRunnerStatus]

/-- C3: when a `session-started` event is accepted, a newly created session
(no id held) triggers the provisioning flow and requests no inventory
refresh, while a resumed session (matching id already held) requests the
runner-status refresh and makes no provisioning call. -/
theorem session_started_new_vs_resumed
    (s : RemoteSession) (connectData : SessionData) (incoming : String) :
    (heldSessionId s = none →
      (onSessionStarted connectData incoming s).2
        = [Effect.onPortForwardingUpdate none, Effect.launchRunnerClient])
    ∧ (incoming ≠ "" → heldSessionId s = some incoming →
      (onSessionStarted connectData incoming s).2
        = [Effect.onPortForwardingUpdate none, Effect.emitCheckRunnerStatus]) := by
  constructor
  · intro h
    simp [onSessionStarted, h, truthy]
  · intro hne h
    simp [onSessionStarted, h, truthy, hne]

/-- C3 witness: a fresh connect (no held id) provisions, a resume with
persisted id `abc` confirmed as `abc` refreshes instead. -/
theorem session_started_new_vs_resumed_witness :
    (onSessionStarted { sampleSession with sessionId := none } "abc"
      { baseState with data := some { sampleSession with sessionId := none } }).2
      = [Effect.onPortForwardingUpdate none, Effect.launchRunnerClient]
    ∧ (onSessionStarted sampleSession "abc"
      { baseState with data := some sampleSession }).2
      = [Effect.onPortForwardingUpdate none, Effect.emitCheckRunnerStatus] :=
  ⟨(session_started_new_vs_resumed
      { baseState with data := some { sampleSession with sessionId := none } }
      { sampleSession with sessionId := none } "abc").1 (by decide),
   (session_started_new_vs_resumed
      { baseState with data := some sampleSession }
      sampleSession "abc").2 (by decide) (by decide)⟩

/-- C4 counterexample: in a `SessionStarted` state whose persisted store
holds the session record, the `SessionTerminated` handler (which delegates
to `disconnectRunner`) leaves the persisted record in place — `setSessionData`
is never called on this path, only `terminate()` clears the store.  This
refutes the part of the claim stating the persisted session record is
cleared. -/
theorem session_terminated_store_not_cleared_cex :
    sessionStartedState.statusData.runnerStatus = RunnerStatus.SessionStarted
    ∧ storeGet (onSessionTerminated sessionStartedState).1.store "owner/repo/main"
      = some sampleSession := by
  decide

/-- C4 amended: receiving `session-terminated` while in `SessionStarted`
empties the Terminal Registry, cancels the provisioning timer, tears down
the transport, clears the in-memory session data (and hence the held id),
and resets the status to `Initial` carrying the `SessionTerminated` error
(the embedding of the spec's `Terminated` state); the persisted session
record, however, is left unchanged. -/
theorem session_terminated_teardown (s : RemoteSession)
    (_hst : s.statusData.runnerStatus = RunnerStatus.SessionStarted) :
    (onSessionTerminated s).1.terminals = []
    ∧ (onSessionTerminated s).1.data = none
    ∧ (onSessionTerminated s).1.socket = none
    ∧ (onSessionTerminated s).1.workflowDispatchTimeout = none
    ∧ (onSessionTerminated s).1.statusData.runnerStatus = RunnerStatus.Initial
    ∧ (onSessionTerminated s).1.statusData.runnerError
      = some RunnerError.SessionTerminated
    ∧ (onSessionTerminated s).1.statusData.sessionId = none
    ∧ Effect.onDisconnected ∈ (onSessionTerminated s).2
    ∧ (onSessionTerminated s).1.store = s.store := by
  cases hw : s.workflowDispatchTimeout <;>
  simp [onSessionTerminated, disconnectRunner,
    clearWorkflowDispatchTimeoutIfNeeded, hw, resetRunnerStatus]

/-- C4 witness at the concrete `SessionStarted` state. -/
theorem session_terminated_teardown_witness :
    (onSessionTerminated sessionStartedState).1.terminals = []
    ∧ (onSessionTerminated sessionStartedState).1.statusData.runnerError
      = some RunnerError.SessionTerminated
    ∧ (onSessionTerminated sessionStartedState).1.store = sessionStartedState.store :=
  ⟨(session_terminated_teardown sessionStartedState (by decide)).1,
   (session_terminated_teardown sessionStartedState (by decide)).2.2.2.2.2.1,
   (session_terminated_teardown sessionStartedState (by decide)).2.2.2.2.2.2.2.2⟩

/-- C5: `activateTerminal` fails with no state change and no effect when the
peer is offline; succeeds as a no-op when `ignoreIfExists` is set and the
registry is non-empty; otherwise it appends exactly one new instance
carrying the freshly generated id and emits exactly one activation
message. -/
theorem activate_terminal_spec (s : RemoteSession) (file : Option String)
    (ig : Bool) (newId : String) (now : Int) :
    (s.statusData.runnerClientStatus = RunnerClientStatus.Offline →
      activateTerminal file ig newId now s = (false, s, []))
    ∧ (s.statusData.runnerClientStatus = RunnerClientStatus.Online → ig = true →
        s.terminals ≠ [] →
      activateTerminal file ig newId now s = (true, s, []))
    ∧ (s.statusData.runnerClientStatus = RunnerClientStatus.Online →
        (ig = false ∨ s.terminals = []) →
      (activateTerminal file ig newId now s).1 = true
      ∧ ∃ t : TerminalInstance,
          (activateTerminal file ig newId now s).2.1.terminals = s.terminals ++ [t]
          ∧ t.id = newId
          ∧ (activateTerminal file ig newId now s).2.2
            = [Effect.emitActivateTerminal t]) := by
  refine ⟨?_, ?_, ?_⟩
  · intro h
    simp [activateTerminal, h]
  · intro h hig hne
    simp [activateTerminal, h, hig, hne]
  · intro h hcase
    have hcond2 : (ig && !s.terminals.isEmpty) = false := by
      rcases hcase with h1 | h1 <;> simp [h1]
    unfold activateTerminal
    rw [h]
    rw [if_neg (by simp), hcond2]
    simp

/-- C5 witness exercising the offline-failure, skip-if-exists and append
branches at concrete states. -/
theorem activate_terminal_spec_witness :
    activateTerminal none false "t9" 50 baseState = (false, baseState, [])
    ∧ activateTerminal none true "t9" 50 sessionStartedState
      = (true, sessionStartedState, [])
    ∧ (activateTerminal none false "t9" 50 sessionStartedState).1 = true :=
  ⟨(activate_terminal_spec baseState none false "t9" 50).1 (by decide),
   (activate_terminal_spec sessionStartedState none true "t9" 50).2.1
     (by decide) rfl (by decide),
   ((activate_terminal_spec sessionStartedState none false "t9" 50).2.2
     (by decide) (Or.inl rfl)).1⟩

/-- C6: a connect-timeout timer firing while the state machine is still in
`Connecting` (no transport `connect` event arrived, so the timer was never
cancelled) tears down the transport and lands in the embedded `Timeout`
state — `Initial` with the `Timeout` error — and `deliverStatusData` then
pushes a timeout error notification to the UI; firing while in
`SessionStarted` performs no transition and no teardown (the status guard
excludes it). -/
theorem connect_timer_fire_spec (s : RemoteSession) (h : Nat)
    (harm : h ∈ s.armedConnectTimers) :
    (s.statusData.runnerStatus = RunnerStatus.Connecting →
      (fireConnectTimer h s).1.statusData.runnerStatus = RunnerStatus.Initial
      ∧ (fireConnectTimer h s).1.statusData.runnerError = some RunnerError.Timeout
      ∧ (fireConnectTimer h s).2 = [Effect.socketDisconnect]
      ∧ ({ ptype := "error", message := some connectTimeoutText } : Payload)
          ∈ deliverStatusData (fireConnectTimer h s).1)
    ∧ (s.statusData.runnerStatus = RunnerStatus.SessionStarted →
      fireConnectTimer h s
        = ({ s with armedConnectTimers := s.armedConnectTimers.erase h }, [])) := by
  constructor
  · intro hc
    have hguard : connectTimerGuard s = true := by
      simp [connectTimerGuard, hc]
    refine ⟨?_, ?_, ?_, ?_⟩ <;>
      simp [fireConnectTimer, harm, hguard, resetRunnerStatus,
        deliverStatusData]
  · intro hss
    have hguard : connectTimerGuard s = false := by
      simp [connectTimerGuard, hss]
    simp [fireConnectTimer, harm, hguard]

/-- C6 witness: firing timer 1 in the concrete `Connecting` state, and in
the concrete `SessionStarted` state with the same timer armed. -/
theorem connect_timer_fire_spec_witness :
    (fireConnectTimer 1 connectingState).1.statusData.runnerError
      = some RunnerError.Timeout
    ∧ ({ ptype := "error", message := some connectTimeoutText } : Payload)
      ∈ deliverStatusData (fireConnectTimer 1 connectingState).1
    ∧ fireConnectTimer 1 { sessionStartedState with armedConnectTimers := [1] }
      = ({ sessionStartedState with armedConnectTimers := List.erase [1] 1 }, []) :=
  ⟨((connect_timer_fire_spec connectingState 1 (by decide)).1 rfl).2.1,
   ((connect_timer_fire_spec connectingState 1 (by decide)).1 rfl).2.2.2,
   (connect_timer_fire_spec { sessionStartedState with armedConnectTimers := [1] }
      1 (by decide)).2 rfl⟩

/-- The terminal-close heuristic threshold, unfolded: for an instance
activated in the past, the truncated dayjs second difference is at least
`-terminalLiveThreshold` exactly when strictly less than 4000 ms have
elapsed. -/
theorem diffSecond_threshold (activate now : Int) (h : activate ≤ now) :
    (diffSecond activate now ≥ -terminalLiveThreshold) ↔ now - activate < 4000 := by
  unfold diffSecond terminalLiveThreshold
  simp only [Int.ofNat_eq_natCast]
  by_cases hms : activate - now < 0
  · rw [if_pos hms]
    have hk : (-(activate - now)).toNat = (now - activate).toNat := by omega
    rw [hk]
    have hdiv : (now - activate).toNat / 1000 ≤ 3 ↔ (now - activate).toNat < 4000 := by
      constructor
      · intro h3
        have h4 : (now - activate).toNat / 1000 < 4 := by omega
        have := (Nat.div_lt_iff_lt_mul (by norm_num : 0 < 1000)).mp h4
        omega
      · intro h4
        have : (now - activate).toNat / 1000 < 4 :=
          (Nat.div_lt_iff_lt_mul (by norm_num : 0 < 1000)).mpr (by omega)
        omega
    constructor
    · intro hge
      have : (now - activate).toNat / 1000 ≤ 3 := by omega
      have := hdiv.mp this
      omega
    · intro hlt
      have := hdiv.mpr (by omega)
      omega
  · rw [if_neg hms]
    have h0 : activate - now = 0 := by omega
    rw [h0]
    constructor
    · intro _
      omega
    · intro _
      simp

/-- C7 counterexample: a `connectTo` performed while an earlier connect
timer (handle 1) is armed does not cancel it — the old handle is still armed
afterwards, and since the new attempt sits in `Connecting` (which the timer
guard admits) the stale timer still fires, clobbering the status with the
`Timeout` error.  This refutes the claim that arming a timer of a kind that
already has one armed always cancels the old one first with exactly one
eventual firing. -/
theorem connect_timer_not_cancelled_cex :
    (1 : Nat) ∈ (connectTo sampleSession (some "Continue") 7 2
      { baseState with armedConnectTimers := [1] }).2.1.armedConnectTimers
    ∧ (fireConnectTimer 1 (connectTo sampleSession (some "Continue") 7 2
        { baseState with armedConnectTimers := [1] }).2.1).1.statusData.runnerError
      = some RunnerError.Timeout := by
  decide

/-- C7 amended: the provisioning (workflow-dispatch) timer kind does obey
the cancel-before-arm discipline — arming twice from a clean state leaves
exactly the second handle armed — but the connect timer kind does not: a
`connectTo` performed while an earlier connect timer is armed keeps that
timer armed, and the resulting `Connecting` status passes the timer guard,
so the stale timer still fires. -/
theorem timer_arming_discipline (s : RemoteSession)
    (h1 h2 t1 newSock newTimer : Nat) (data : SessionData)
    (answer : Option String) :
    (s.workflowDispatchTimeout = none → s.armedProvisionTimers = [] →
      (armWorkflowDispatchTimeout h2
        (armWorkflowDispatchTimeout h1 s)).armedProvisionTimers = [h2]
      ∧ (armWorkflowDispatchTimeout h2
        (armWorkflowDispatchTimeout h1 s)).workflowDispatchTimeout = some h2)
    ∧ (sessionConflictB s.store data = false → t1 ∈ s.armedConnectTimers →
      t1 ∈ (connectTo data answer newSock newTimer s).2.1.armedConnectTimers
      ∧ connectTimerGuard (connectTo data answer newSock newTimer s).2.1 = true) := by
  constructor
  · intro hw hp
    simp [armWorkflowDispatchTimeout, clearWorkflowDispatchTimeoutIfNeeded, hw, hp]
  · intro hc ht
    simp [connectTo, hc, connectTimerGuard, ht]

/-- C7 witness: provisioning timers 3 then 4 from the base state, and a
connect while timer 1 is armed. -/
theorem timer_arming_discipline_witness :
    ((armWorkflowDispatchTimeout 4
        (armWorkflowDispatchTimeout 3 baseState)).armedProvisionTimers = [4]
      ∧ (armWorkflowDispatchTimeout 4
        (armWorkflowDispatchTimeout 3 baseState)).workflowDispatchTimeout = some 4)
    ∧ ((1 : Nat) ∈ (connectTo sampleSession none 7 2
        { baseState with armedConnectTimers := [1] }).2.1.armedConnectTimers
      ∧ connectTimerGuard (connectTo sampleSession none 7 2
        { baseState with armedConnectTimers := [1] }).2.1 = true) :=
  ⟨(timer_arming_discipline baseState 3 4 1 7 2 sampleSession none).1 rfl rfl,
   (timer_arming_discipline { baseState with armedConnectTimers := [1] }
      3 4 1 7 2 sampleSession none).2 (by decide) (by decide)⟩

/-- C8: when `connectTo` finds a conflicting persisted session id for the
same runner descriptor, the confirmation prompt is the first effect (it
precedes any transport teardown or connection attempt), and on decline the
call returns `false`, only sets the status back to `Initial`, and leaves
everything else — in particular the persisted old session — untouched. -/
theorem connect_conflict_decline (s : RemoteSession) (data : SessionData)
    (answer : Option String) (newSock newTimer : Nat)
    (hconf : sessionConflictB s.store data = true)
    (hdecl : answer ≠ some "Continue") :
    connectTo data answer newSock newTimer s
      = (false,
         { s with statusData :=
            { s.statusData with runnerStatus := RunnerStatus.Initial } },
         [Effect.promptSessionConflict])
    ∧ (connectTo data (some "Continue") newSock newTimer s).2.2.head?
      = some Effect.promptSessionConflict := by
  constructor
  · simp [connectTo, hconf, hdecl]
  · simp [connectTo, hconf]

/-- C8 witness: declining the prompt for a persisted session `abc` when
requesting a connect with session id `zzz` for the same ref key. -/
theorem connect_conflict_decline_witness :
    (connectTo { sampleSession with sessionId := some "zzz" } none 7 2
      { baseState with store := [("owner/repo/main", sampleSession)] }).1 = false
    ∧ (connectTo { sampleSession with sessionId := some "zzz" } none 7 2
      { baseState with store := [("owner/repo/main", sampleSession)] }).2.1.store
      = [("owner/repo/main", sampleSession)] :=
  have h := (connect_conflict_decline
    { baseState with store := [("owner/repo/main", sampleSession)] }
    { sampleSession with sessionId := some "zzz" } none 7 2
    (by decide) (by decide)).1
  ⟨by rw [h], by rw [h]⟩

/-- C9 counterexample: a terminal activated at time 0 and closed at 3500 ms
— strictly after the 3-second threshold — still triggers the
misconfiguration warning, because the dayjs second difference truncates
toward zero (`-3500 ms` becomes `-3 s`, which is `≥ -terminalLiveThreshold`).
This refutes the part of the claim stating no warning is emitted after the
threshold. -/
theorem terminal_closed_after_threshold_cex :
    (onTerminalClosed "t1" 3500 { baseState with terminals := [sampleTerminal] }).2
      = [Effect.showWarning terminalClosedWarningText]
    ∧ (3500 : Int) - sampleTerminal.activateTime > 3000 := by
  decide

/-- C9 amended: a terminal-closed notification for a present instance always
removes it, and the misconfiguration warning is emitted exactly when the
elapsed time is strictly below 4000 ms — i.e. when the truncated dayjs
second difference is at most the 3-second threshold.  In particular every
close within 3 seconds warns, but so do closes up to one second past the
threshold; only closes at 4 seconds or later are silent. -/
theorem terminal_closed_threshold (s : RemoteSession) (tid : String)
    (now : Int) (t : TerminalInstance)
    (hfind : s.terminals.find? (fun u => u.id == tid) = some t)
    (hpast : t.activateTime ≤ now) :
    (onTerminalClosed tid now s).1.terminals
      = s.terminals.filter (fun u => u.id != tid)
    ∧ (onTerminalClosed tid now s).2
      = (if now - t.activateTime < 4000 then
          [Effect.showWarning terminalClosedWarningText] else []) := by
  refine ⟨rfl, ?_⟩
  have hcw : closeWarning s tid now
      = decide (diffSecond t.activateTime now ≥ -terminalLiveThreshold) := by
    unfold closeWarning
    rw [hfind]
  have hiff := diffSecond_threshold t.activateTime now hpast
  show (if closeWarning s tid now then
    [Effect.showWarning terminalClosedWarningText] else []) = _
  rw [hcw]
  by_cases hlt : now - t.activateTime < 4000
  · rw [if_pos hlt, if_pos (decide_eq_true (hiff.mpr hlt))]
  · rw [if_neg hlt, if_neg ?hneg]
    case hneg =>
      intro hc
      exact hlt (hiff.mp (of_decide_eq_true hc))

/-- C9 witness: a close at 2000 ms warns and removes, a close at 4000 ms
removes silently. -/
theorem terminal_closed_threshold_witness :
    (onTerminalClosed "t1" 2000 { baseState with terminals := [sampleTerminal] }).2
      = [Effect.showWarning terminalClosedWarningText]
    ∧ (onTerminalClosed "t1" 4000 { baseState with terminals := [sampleTerminal] }).2 = []
    ∧ (onTerminalClosed "t1" 4000
        { baseState with terminals := [sampleTerminal] }).1.terminals = [] :=
  have h2 := terminal_closed_threshold { baseState with terminals := [sampleTerminal] }
    "t1" 2000 sampleTerminal (by decide) (by decide)
  have h4 := terminal_closed_threshold { baseState with terminals := [sampleTerminal] }
    "t1" 4000 sampleTerminal (by decide) (by decide)
  ⟨by rw [h2.2]; decide, by rw [h4.2]; decide, by rw [h4.1]; decide⟩

/-- C10: a terminal-closed notification whose id matches nothing in the
registry leaves the registry unchanged, yet still emits the
misconfiguration warning: the missing activation time falls back to `?? 0`,
and `0 ≥ -terminalLiveThreshold` holds. -/
theorem terminal_closed_unknown_id (s : RemoteSession) (tid : String)
    (now : Int)
    (hfind : s.terminals.find? (fun u => u.id == tid) = none) :
    (onTerminalClosed tid now s).1.terminals = s.terminals
    ∧ (onTerminalClosed tid now s).2
      = [Effect.showWarning terminalClosedWarningText] := by
  have hall := List.find?_eq_none.mp hfind
  constructor
  · show s.terminals.filter (fun u => u.id != tid) = s.terminals
    apply List.filter_eq_self.mpr
    intro a ha
    have := hall a ha
    simp only [Bool.not_eq_true] at this
    simp only [bne_iff_ne, ne_eq]
    intro hh
    rw [hh] at this
    simp at this
  · have hcw : closeWarning s tid now = true := by
      unfold closeWarning
      rw [hfind]
      show decide ((0 : Int) ≥ -terminalLiveThreshold) = true
      decide
    show (if closeWarning s tid now then
      [Effect.showWarning terminalClosedWarningText] else []) = _
    rw [hcw]
    simp

/-- C10 witness: closing the unknown id `zz` against a registry holding only
`t1`. -/
theorem terminal_closed_unknown_id_witness :
    (onTerminalClosed "zz" 999999
      { baseState with terminals := [sampleTerminal] }).1.terminals = [sampleTerminal]
    ∧ (onTerminalClosed "zz" 999999
      { baseState with terminals := [sampleTerminal] }).2
      = [Effect.showWarning terminalClosedWarningText] :=
  have h := terminal_closed_unknown_id
    { baseState with terminals := [sampleTerminal] } "zz" 999999 (by decide)
  ⟨h.1, h.2⟩
